import Mathlib

/-
Verification of the soil-moisture monitoring repository
(SoilSensor_Prediction_Email.py, soilMail.py, soilMeas.py).

Shallow embedding: machine reals become ℚ, the fallible hardware/network
calls (I2C bus read, SMTP transport) become `Except String` parameters, and
the trained LSTM model becomes an arbitrary function `List ℚ → ℚ` since the
properties checked are structural, not numeric.
-/

namespace PredictionEmail

/-- Prediction window length from SoilSensor_Prediction_Email.py
(`SEQ_LENGTH = 3`). -/
def SEQ_LENGTH : ℕ := 3

/-- Schedule hours for wet-state status reports
(`if current_hour in [8, 20]`). -/
def SCHEDULE_HOURS : List ℕ := [8, 20]

/-- Embedding of `create_sequences(data, seq_len)`: the Python loop
`for i in range(len(data) - seq_len): X.append(data[i:i+seq_len]);
y.append(data[i+seq_len])` rendered as maps over the same index range.
Python `range` of a non-positive bound is empty, matching ℕ subtraction. -/
def create_sequences (data : List ℚ) (seqLen : ℕ) : List (List ℚ) × List ℚ :=
  ((List.range (data.length - seqLen)).map fun i => (data.drop i).take seqLen,
   (List.range (data.length - seqLen)).map fun i => data.getD (i + seqLen) 0)

/-- Minimum of the moisture column (sklearn `data_min_`). -/
def listMin (xs : List ℚ) : ℚ := xs.foldl min (xs.headD 0)

/-- Maximum of the moisture column (sklearn `data_max_`). -/
def listMax (xs : List ℚ) : ℚ := xs.foldl max (xs.headD 0)

/-- sklearn `data_range_ = data_max_ - data_min_`. -/
def dataRange (xs : List ℚ) : ℚ := listMax xs - listMin xs

/-- sklearn `_handle_zeros_in_scale`: a zero range is replaced by 1. -/
def handleZeros (r : ℚ) : ℚ := if r = 0 then 1 else r

/-- sklearn MinMaxScaler `scale_` for feature_range (0, 1). -/
def mmScale (xs : List ℚ) : ℚ := 1 / handleZeros (dataRange xs)

/-- sklearn MinMaxScaler `min_ = feature_min - data_min_ * scale_`. -/
def mmMin (xs : List ℚ) : ℚ := 0 - listMin xs * mmScale xs

/-- MinMaxScaler `transform`: `X * scale_ + min_`. -/
def mmTransform (xs : List ℚ) (x : ℚ) : ℚ := x * mmScale xs + mmMin xs

/-- MinMaxScaler `inverse_transform`: `(X - min_) / scale_`. -/
def mmInverse (xs : List ℚ) (y : ℚ) : ℚ := (y - mmMin xs) / mmScale xs

/-- The recursive prediction loop of `build_and_predict_model`: at each of
`n` steps, compute `next_pred_scaled = model(last_seq)`, append its
de-normalization (`invf`) to the predictions, and roll the window with
`np.append(last_seq[1:], next_pred_scaled)`. -/
def recursiveForecast (model : List ℚ → ℚ) (invf : ℚ → ℚ) :
    ℕ → List ℚ → List ℚ
  | 0, _ => []
  | n + 1, seq => invf (model seq) ::
      recursiveForecast model invf n (seq.tail ++ [model seq])

/-- Embedding of the forecast portion of `build_and_predict_model(df)`:
scale the moisture column, take the last `SEQ_LENGTH` scaled values
(`moisture_scaled[-SEQ_LENGTH:]`), and run 3 recursive prediction steps.
The fitted LSTM is the opaque `model`. No clamping is applied anywhere. -/
def build_and_predict_model (model : List ℚ → ℚ) (moisture : List ℚ) :
    List ℚ :=
  let scaled := moisture.map (mmTransform moisture)
  let lastSeq := scaled.drop (scaled.length - SEQ_LENGTH)
  recursiveForecast model (mmInverse moisture) 3 lastSeq

/-- Strategy A decision in `moisture_callback`: dry always sends; wet sends
only when the current hour is in the schedule list. -/
def strategyA_should_send (isDry : Bool) (hour : ℕ) : Bool :=
  if isDry then true else decide (hour ∈ SCHEDULE_HOURS)

/-- Embedding of `send_email`: the SMTP session (`transport`) may fail, the
`try/except` catches every exception and the function returns the printed
line normally in both cases. -/
def send_email (transport : Except String Unit) : String :=
  match transport with
  | .ok _ => "Email sent successfully!"
  | .error e => "Failed to send email: " ++ e

/-- One `moisture_callback` cycle: the history is appended to by
`load_and_update_data` before any send, and the send (when the policy fires)
returns its log line without affecting state. -/
def moisture_cycle (history : List ℚ) (m : ℚ) (isDry : Bool) (hour : ℕ)
    (transport : Except String Unit) : List ℚ × Option String :=
  let h2 := history ++ [m]
  if strategyA_should_send isDry hour then (h2, some (send_email transport))
  else (h2, none)

end PredictionEmail

namespace SoilMail

/-- Beijing-time adaptation in soilMail.py: both `startTime` and
`Current_Value` are computed as `tm_hour + 8`. -/
def beijingHour (tmHour : ℤ) : ℤ := tmHour + 8

/-- The hour-difference computation of the main loop:
`difference = Current_Value - lastValue; if difference < 0: difference += 24`. -/
def hourDiff (current last : ℤ) : ℤ :=
  if current - last < 0 then current - last + 24 else current - last

/-- The decision and watermark update of one loop body, without the send:
same hour is a no-op; otherwise the watermark becomes the current hour in
both the send (`difference > 3`) and no-send branches. Returns
(send decision, new `lastValue`). -/
def strategyB_step (lastValue current : ℤ) : Bool × ℤ :=
  if lastValue = current then (false, lastValue)
  else if hourDiff current lastValue > 3 then (true, current)
  else (false, current)

/-- Embedding of soilMail.py `send_email(moisture)`: the SMTP calls sit in a
`try/except` that catches every exception, so the function always returns
its printed line normally. -/
def send_email (transport : Except String Unit) : String :=
  match transport with
  | .ok _ => "Email sent successfully!"
  | .error e => "Failed to send email: " ++ e

/-- One full body of the soilMail.py `while True` loop: the same-hour check,
the hour-difference threshold, the email attempt through the fallible
`transport`, and the watermark update which follows the send attempt
unconditionally. Returns (send decision, new `lastValue`, send log). -/
def strategyB_cycle (lastValue current : ℤ) (transport : Except String Unit) :
    Bool × ℤ × Option String :=
  if lastValue = current then (false, lastValue, none)
  else if hourDiff current lastValue > 3 then
    (true, current, some (send_email transport))
  else (false, current, none)

end SoilMail

namespace SoilMeas

/-- Python `round(x, 2)` uses round-half-to-even on the scaled value. -/
def roundHalfEven (q : ℚ) : ℤ :=
  if q - Int.floor q < 1/2 then Int.floor q
  else if q - Int.floor q > 1/2 then Int.floor q + 1
  else if Int.floor q % 2 = 0 then Int.floor q else Int.floor q + 1

/-- Rounding to two decimal places, as `round(·, 2)` in soilMeas.py. -/
def round2 (q : ℚ) : ℚ := (roundHalfEven (q * 100) : ℚ) / 100

/-- Embedding of soilMeas.py `read_soil_moisture()`: the ADC read
(`adc.read_adc`) may raise, in which case the except-branch returns
`(None, None, None)`; otherwise voltage = adc/65535*5, moisture =
round(100 - voltage/5*100, 2) clamped by `max(0.0, min(100.0, ·))`. -/
def read_soil_moisture (reading : Except String ℤ) : Option (ℤ × ℚ × ℚ) :=
  match reading with
  | .error _ => none
  | .ok adc =>
    let voltage : ℚ := (adc : ℚ) / 65535 * 5
    let moisture := round2 (100 - voltage / 5 * 100)
    some (adc, voltage, max 0 (min 100 moisture))

end SoilMeas

open PredictionEmail SoilMail SoilMeas

/-! ## Helper lemmas -/

theorem recursiveForecast_length (model : List ℚ → ℚ) (invf : ℚ → ℚ) :
    ∀ (n : ℕ) (seq : List ℚ), (recursiveForecast model invf n seq).length = n := by
  intro n
  induction n with
  | zero => intro seq; rfl
  | succ k ih => intro seq; simp [recursiveForecast, ih]

theorem recursiveForecast_mem (model : List ℚ → ℚ) (invf : ℚ → ℚ) :
    ∀ (n : ℕ) (seq : List ℚ) (v : ℚ),
      v ∈ recursiveForecast model invf n seq → ∃ p, v = invf p := by
  intro n
  induction n with
  | zero => intro seq v hv; simp [recursiveForecast] at hv
  | succ k ih =>
    intro seq v hv
    simp only [recursiveForecast, List.mem_cons] at hv
    rcases hv with h | h
    · exact ⟨model seq, h⟩
    · exact ih _ v h

theorem hourDiff_offset (c l k : ℤ) :
    hourDiff (c + k) (l + k) = hourDiff c l := by
  simp only [hourDiff]
  have h : c + k - (l + k) = c - l := by ring
  rw [h]

/-! ## Claims -/

/-- C2: for every series with `len ≥ seq_len + 1` and positive `seq_len`,
`create_sequences` returns exactly `len - seq_len` windows; window `i` is
the pair `(series[i : i+seq_len], series[i+seq_len])`, the input part of
every window has length `seq_len`, and windows appear in order, oldest
first (the window at list position `i` starts at series position `i`). -/
theorem create_sequences_window_spec (series : List ℚ) (seqLen : ℕ)
    (hpos : 0 < seqLen) (hlen : seqLen + 1 ≤ series.length) :
    (create_sequences series seqLen).1.length = series.length - seqLen ∧
    (create_sequences series seqLen).2.length = series.length - seqLen ∧
    ∀ i, i < series.length - seqLen →
      (create_sequences series seqLen).1.getD i [] =
        (series.drop i).take seqLen ∧
      ((create_sequences series seqLen).1.getD i []).length = seqLen ∧
      (create_sequences series seqLen).2.getD i 0 =
        series.getD (i + seqLen) 0 := by
  refine ⟨by simp [create_sequences], by simp [create_sequences], ?_⟩
  intro i hi
  have hX : (create_sequences series seqLen).1.getD i [] =
      (series.drop i).take seqLen := by
    simp [create_sequences, List.getD_eq_getElem?_getD, List.getElem?_map,
      List.getElem?_range, hi]
  refine ⟨hX, ?_, ?_⟩
  · rw [hX]
    have hdrop : (series.drop i).length = series.length - i := by simp
    rw [List.length_take, hdrop]
    omega
  · simp [create_sequences, List.getD_eq_getElem?_getD, List.getElem?_map,
      List.getElem?_range, hi]

/-- Witness for C2 at `series = [1,2,3,4,5]`, `seq_len = 3`. -/
theorem create_sequences_window_witness :
    0 < 3 ∧ 3 + 1 ≤ ([1, 2, 3, 4, 5] : List ℚ).length ∧
    (create_sequences [1, 2, 3, 4, 5] 3).1.length = 2 :=
  ⟨by decide, by decide,
    (create_sequences_window_spec [1, 2, 3, 4, 5] 3 (by decide) (by decide)).1⟩

/-- C3 (amended): for every series with `len ≤ seq_len`, `create_sequences`
returns normally with zero windows (empty `X` and `y`); no
`InsufficientHistory` error exists in the code or is raised. -/
theorem create_sequences_short_series_empty (series : List ℚ) (seqLen : ℕ)
    (h : series.length ≤ seqLen) :
    create_sequences series seqLen = ([], []) := by
  have h0 : series.length - seqLen = 0 := by omega
  simp [create_sequences, h0]

/-- Witness for C3 at `series = [5]`, `seq_len = 3`. -/
theorem create_sequences_short_series_witness :
    ([(5 : ℚ)]).length ≤ 3 ∧ create_sequences [5] 3 = ([], []) :=
  ⟨by decide, create_sequences_short_series_empty [5] 3 (by decide)⟩

/-- Counterexample to C3 as stated: at `series = [5]`, `seq_len = 3`
(`len ≤ seq_len`), windowing does NOT fail — it returns the normal empty
result `([], [])`, contradicting "it does not return a normal, e.g. empty,
result". -/
theorem create_sequences_no_error_counterexample :
    create_sequences [(5 : ℚ)] 3 = ([], []) := by
  decide

/-- C1 (amended): for every history whose moisture column has at least
`SEQ_LENGTH + 1` values, `build_and_predict_model` returns a forecast of
exactly 3 values, and every value is a de-normalized model output
(`mmInverse`) with NO clamping applied, so out-of-range model outputs can
produce values outside [0, 100]. -/
theorem forecast_length_and_denorm (model : List ℚ → ℚ) (moisture : List ℚ)
    (hlen : SEQ_LENGTH + 1 ≤ moisture.length) :
    (build_and_predict_model model moisture).length = 3 ∧
    ∀ v ∈ build_and_predict_model model moisture,
      ∃ p, v = mmInverse moisture p := by
  constructor
  · exact recursiveForecast_length model (mmInverse moisture) 3 _
  · intro v hv
    exact recursiveForecast_mem model (mmInverse moisture) 3 _ v hv

/-- Witness for C1 at a constant model and a 4-sample history. -/
theorem forecast_length_witness :
    SEQ_LENGTH + 1 ≤ ([30, 40, 50, 60] : List ℚ).length ∧
    (build_and_predict_model (fun _ => 0) [30, 40, 50, 60]).length = 3 :=
  ⟨by decide,
    (forecast_length_and_denorm (fun _ => 0) [30, 40, 50, 60] (by decide)).1⟩

/-- Counterexample to C1 as stated: with history `[0, 50, 100, 40]`
(min 0, max 100, so scale = 1/100) and a model that outputs the
out-of-range scaled value 2, the forecast is `[200, 200, 200]` — every
value is 200, which does not lie in [0, 100]: the code never clamps. -/
theorem forecast_unclamped_counterexample :
    build_and_predict_model (fun _ => 2) [0, 50, 100, 40] = [200, 200, 200] ∧
    ¬ ((200 : ℚ) ≤ 100) := by
  constructor
  · norm_num [build_and_predict_model, SEQ_LENGTH, recursiveForecast, mmInverse,
      mmTransform, mmScale, mmMin, handleZeros, dataRange, listMin, listMax]
  · norm_num

/-- C4: Strategy A in `moisture_callback`: a dry state always yields
`should_send = true`; a wet state yields `should_send = true` iff the
current hour is in the schedule set `{8, 20}`, else `false`. -/
theorem strategyA_decision_spec (hour : ℕ) :
    strategyA_should_send true hour = true ∧
    (strategyA_should_send false hour = true ↔ hour = 8 ∨ hour = 20) := by
  refine ⟨rfl, ?_⟩
  simp [strategyA_should_send, SCHEDULE_HOURS]

/-- C5: the hour-difference arithmetic of soilMail.py:
`diff = current - last`, with 24 added when negative; in particular
`last = 23, current = 1` gives `diff = 2 < threshold 3` (no send, watermark
advances to 1), and `last = 6, current = 10` gives `diff = 4` (send,
watermark advances to 10). -/
theorem strategyB_hour_difference_spec (current lastValue : ℤ) :
    (current - lastValue < 0 →
      hourDiff current lastValue = current - lastValue + 24) ∧
    (0 ≤ current - lastValue →
      hourDiff current lastValue = current - lastValue) ∧
    hourDiff 1 23 = 2 ∧ strategyB_step 23 1 = (false, 1) ∧
    hourDiff 10 6 = 4 ∧ strategyB_step 6 10 = (true, 10) := by
  refine ⟨?_, ?_, by decide, by decide, by decide, by decide⟩
  · intro h; simp [hourDiff, h]
  · intro h
    unfold hourDiff
    rw [if_neg (by omega)]

/-- Witness for C5 at `current = 2, last = 7` (negative raw difference). -/
theorem strategyB_hour_difference_witness :
    (2 : ℤ) - 7 < 0 ∧ hourDiff 2 7 = 2 - 7 + 24 :=
  ⟨by decide, (strategyB_hour_difference_spec 2 7).1 (by decide)⟩

/-- C6: whenever `current_hour` differs from `last_notified_hour`, the loop
body sets the watermark to `current_hour`, in both the send and no-send
branches, and for every outcome of the notification transport. -/
theorem strategyB_watermark_advances (lastValue current : ℤ)
    (transport : Except String Unit) (h : lastValue ≠ current) :
    (strategyB_cycle lastValue current transport).2.1 = current := by
  simp only [strategyB_cycle, if_neg h]
  by_cases h2 : hourDiff current lastValue > 3 <;> simp [h2]

/-- Witness for C6 at `last = 23, current = 1` with a failing transport. -/
theorem strategyB_watermark_advances_witness :
    (23 : ℤ) ≠ 1 ∧
    (strategyB_cycle 23 1 (Except.error "smtp down")).2.1 = 1 :=
  ⟨by decide, strategyB_watermark_advances 23 1 (Except.error "smtp down")
    (by decide)⟩

/-- C7: same-hour idempotence: when `current_hour` equals
`last_notified_hour` the loop body sends nothing and leaves the watermark
unchanged, for every transport outcome. -/
theorem strategyB_same_hour_noop (lastValue : ℤ)
    (transport : Except String Unit) :
    strategyB_cycle lastValue lastValue transport = (false, lastValue, none) := by
  simp [strategyB_cycle]

/-- C8: a delivery failure is caught inside `send_email` (both files), which
returns its failure log normally; the failure does not change the appended
history of a `moisture_callback` cycle, and the Strategy B decision and
watermark are identical to those of a successful delivery. -/
theorem delivery_failure_isolated (history : List ℚ) (m : ℚ) (isDry : Bool)
    (hour : ℕ) (e : String) (lastValue current : ℤ) :
    (moisture_cycle history m isDry hour (Except.error e)).1 = history ++ [m] ∧
    PredictionEmail.send_email (Except.error e) = "Failed to send email: " ++ e ∧
    SoilMail.send_email (Except.error e) = "Failed to send email: " ++ e ∧
    (strategyB_cycle lastValue current (Except.error e)).2.1 =
      (strategyB_cycle lastValue current (Except.ok ())).2.1 ∧
    (strategyB_cycle lastValue current (Except.error e)).1 =
      (strategyB_cycle lastValue current (Except.ok ())).1 := by
  refine ⟨?_, rfl, rfl, ?_, ?_⟩
  · by_cases h : strategyA_should_send isDry hour <;> simp [moisture_cycle, h]
  · by_cases h1 : lastValue = current <;>
      by_cases h2 : hourDiff current lastValue > 3 <;>
      simp [strategyB_cycle, h1, h2]
  · by_cases h1 : lastValue = current <;>
      by_cases h2 : hourDiff current lastValue > 3 <;>
      simp [strategyB_cycle, h1, h2]

/-- C9: `read_soil_moisture` in soilMeas.py returns `None` components when
the hardware read raises, and otherwise a triple whose moisture component is
clamped to [0, 100] by `max(0.0, min(100.0, ·))`, for every raw ADC value. -/
theorem read_soil_moisture_clamped (adc : ℤ) (e : String) :
    read_soil_moisture (Except.error e) = none ∧
    ∃ v m, read_soil_moisture (Except.ok adc) = some (adc, v, m) ∧
      0 ≤ m ∧ m ≤ 100 := by
  refine ⟨rfl, _, _, rfl, ?_, ?_⟩
  · exact le_max_left 0 _
  · exact max_le (by norm_num) (min_le_left _ _)

/-- C10: the +8 Beijing-time offset is applied to both hours, and the
hour-difference and the send/no-send decision are invariant under any fixed
offset applied to both hours, even when the stored values exceed 23. -/
theorem timezone_offset_invariance (lastValue current k : ℤ) :
    hourDiff (current + k) (lastValue + k) = hourDiff current lastValue ∧
    (strategyB_step (lastValue + k) (current + k)).1 =
      (strategyB_step lastValue current).1 ∧
    (strategyB_step (beijingHour lastValue) (beijingHour current)).1 =
      (strategyB_step lastValue current).1 ∧
    beijingHour current = current + 8 := by
  have step : ∀ j : ℤ,
      (strategyB_step (lastValue + j) (current + j)).1 =
        (strategyB_step lastValue current).1 := by
    intro j
    by_cases h : lastValue = current
    · simp [strategyB_step, h]
    · have h2 : lastValue + j ≠ current + j := fun hh => h (by omega)
      simp only [strategyB_step, if_neg h2, if_neg h, hourDiff_offset]
      by_cases h3 : hourDiff current lastValue > 3 <;> simp [h3]
  refine ⟨hourDiff_offset current lastValue k, step k, ?_, rfl⟩
  simpa [beijingHour] using step 8
